import Mathlib

/-!
Verification development for the Lyftr webhook API.

This file gives a shallow embedding, in Lean 4, of the core of the service:

* `app/storage.py` — `insert_message`, `get_messages`, `get_stats` over a
  SQLite table, modelled as pure functions over an explicit list of rows
  (list order mirrors rowid / insertion order).
* `app/models.py` — the `WebhookMessage` pydantic validators.
* `app/main.py` — the `POST /webhook`, `GET /messages` and `GET /stats`
  handlers, including the FastAPI request pipeline (body validation runs
  before the handler body) and HMAC-SHA256 signature verification
  (implemented concretely below).

SQLite specifics that the embedding fixes explicitly:

* TEXT comparison (`ts >= ?`, `ORDER BY`) is byte-wise `memcmp` over the
  UTF-8 encoding, which on valid UTF-8 coincides with lexicographic
  comparison of code points; we model it as the lexicographic order on the
  list of code points (`textKey`).
* `LIKE` is ASCII-case-insensitive; `%` matches any sequence and `_` any
  single character.  The full pattern matcher is implemented (`likeMatch`).
* A NULL operand of `LIKE` makes the WHERE clause not match the row.
-/

/-! ## SQLite text ordering -/

/-- The code points of a string.  SQLite compares TEXT values by `memcmp`
over their UTF-8 bytes, which for valid UTF-8 orders exactly like the
lexicographic order on code points. -/
def textKey (s : String) : List Nat := s.data.map Char.toNat

/-- SQLite `<` on TEXT values. -/
def sqlTextLt (s t : String) : Prop := textKey s < textKey t

/-- SQLite `<=` on TEXT values (this is the order used by `ts >= ?` and by
`ORDER BY ... ASC`). -/
def sqlTextLe (s t : String) : Prop := textKey s ≤ textKey t

instance : DecidableRel sqlTextLt := fun s t => by unfold sqlTextLt; infer_instance

instance : DecidableRel sqlTextLe := fun s t => by unfold sqlTextLe; infer_instance

theorem char_toNat_injective {a b : Char} (h : a.toNat = b.toNat) : a = b :=
  Char.ext (UInt32.toNat.inj h)

theorem textKey_injective {s t : String} (h : textKey s = textKey t) : s = t := by
  rcases s with ⟨ls⟩
  rcases t with ⟨lt⟩
  unfold textKey at h
  simp only [String.data] at h
  congr 1
  exact List.map_injective_iff.mpr (fun _ _ hc => char_toNat_injective hc) h

/-! ## SQLite `LIKE` -/

/-- SQLite's ASCII case folding used by `LIKE`: fold `A`–`Z` to lowercase,
leave every other character unchanged. -/
def likeFold (c : Char) : Char :=
  if 'A' ≤ c ∧ c ≤ 'Z' then Char.ofNat (c.toNat + 32) else c

/-- Helper for the `%` wildcard: `likeStar f t` holds iff `f` holds of some
suffix of `t` (`%` consumes any prefix of the text). -/
def likeStar (f : List Char → Bool) : List Char → Bool
  | [] => f []
  | c :: t' => f (c :: t') || likeStar f t'

/-- SQLite `LIKE` pattern matching (first argument the pattern, second the
text): `%` matches any sequence of characters, `_` matches exactly one
character, any other character matches ASCII-case-insensitively. -/
def likeMatch : List Char → List Char → Bool
  | [], t => t.isEmpty
  | '%' :: ps, t => likeStar (likeMatch ps) t
  | c :: ps, t =>
    match t with
    | [] => false
    | d :: ts => (c = '_' || likeFold c = likeFold d) && likeMatch ps ts

example : likeMatch "%ell%".data "Hello".data = true := by decide
example : likeMatch "%hello%".data "HELLO".data = true := by decide
example : likeMatch "%xyz%".data "Hello".data = false := by decide

/-! ## Python helpers -/

/-- Python truthiness of an `Optional[str]`: `None` and `""` are falsy.
This is the test `if from_msisdn:` / `if since:` / `if q:` in
`storage.get_messages` and `if not x_signature:` in `main.webhook`. -/
def pyTruthy : Option String → Bool
  | none => false
  | some s => s != ""

example : pyTruthy none = false := by decide
example : pyTruthy (some "") = false := by decide
example : pyTruthy (some "x") = true := by decide

/-- A string is ASCII-only (every code point below 128).  This is the
operand requirement of Python's `hmac.compare_digest` on `str` values: it
raises `TypeError` when either operand contains a non-ASCII character. -/
def isAsciiStr (s : String) : Bool := s.data.all (fun c => c.toNat < 128)

example : isAsciiStr "abc0129" = true := by decide
example : isAsciiStr "" = true := by decide
example : isAsciiStr "é" = false := by decide

/-- Whether a supplied `X-Signature` header value can reach
`hmac.compare_digest` without tripping its ASCII-only requirement (an
absent header never reaches the comparison at all). -/
def asciiSig : Option String → Bool
  | none => true
  | some s => isAsciiStr s

/-! ## Data model (`CREATE TABLE messages` in `storage.init_db`)

A stored row.  All columns except `text` are `NOT NULL`; `message_id` is
the `PRIMARY KEY`.  A `List Row` models the table contents in rowid
(insertion) order. -/

structure Row where
  message_id : String
  from_msisdn : String
  to_msisdn : String
  ts : String
  text : Option String
  created_at : String
deriving DecidableEq, Repr

/-- Which sqlite3 call, if any, raises during one `insert_message` call:
`connect` models `sqlite3.connect` raising inside `get_db_connection`
(called *before* the `try` block of `insert_message`); `write` models any
non-`IntegrityError` exception raised by `cursor.execute`/`conn.commit`
inside the `try` block. -/
inductive DbFault where
  | connect
  | write
deriving DecidableEq, Repr

/-! ## `storage.insert_message` -/

/-- Shallow embedding of `storage.insert_message`.

`now` models `datetime.utcnow().isoformat() + "Z"`; `fault` is the fault
oracle for the sqlite3 calls of this invocation.  The first component is
the Python outcome: `.ok (success, is_duplicate)` when the function
returns, `.error ()` when an exception propagates to the caller (which
happens exactly when `sqlite3.connect` raises, because
`get_db_connection()` is called outside the `try`).  The second component
is the table after the call.  The `INSERT` hits the `message_id` PRIMARY
KEY constraint — raising `sqlite3.IntegrityError` — iff a row with that id
already exists. -/
def insert_message (message_id from_msisdn to_msisdn ts : String)
    (text : Option String) (now : String) (fault : Option DbFault)
    (store : List Row) : Except Unit (Bool × Bool) × List Row :=
  match fault with
  | some .connect => (.error (), store)
  | some .write => (.ok (false, false), store)
  | none =>
    if store.any (fun r => r.message_id == message_id) then
      (.ok (true, true), store)
    else
      (.ok (true, false),
        store ++ [⟨message_id, from_msisdn, to_msisdn, ts, text, now⟩])

/-! ## `storage.get_messages` -/

/-- The `from_msisdn = ?` WHERE clause, applied only when the Python value
is truthy (`if from_msisdn:`). -/
def fromClause (from_msisdn : Option String) (r : Row) : Bool :=
  if pyTruthy from_msisdn then r.from_msisdn == from_msisdn.getD "" else true

/-- The `ts >= ?` WHERE clause, applied only when the Python value is
truthy (`if since:`). -/
def sinceClause (since : Option String) (r : Row) : Bool :=
  if pyTruthy since then decide (sqlTextLe (since.getD "") r.ts) else true

/-- The `text LIKE ?` WHERE clause with pattern `f"%{q}%"`, applied only
when the Python value is truthy (`if q:`).  A NULL `text` never matches. -/
def qClause (q : Option String) (r : Row) : Bool :=
  if pyTruthy q then
    match r.text with
    | none => false
    | some t => likeMatch ('%' :: ((q.getD "").data ++ ['%'])) t.data
  else true

/-- The conjunctive WHERE clause of `storage.get_messages`
(`" AND ".join(where_clauses)`, or `1=1` when no filter is supplied). -/
def rowMatches (from_msisdn since q : Option String) (r : Row) : Bool :=
  fromClause from_msisdn r && sinceClause since r && qClause q r

/-- `ORDER BY ts ASC, message_id ASC` as a relation on rows. -/
def rowOrd (a b : Row) : Prop :=
  sqlTextLt a.ts b.ts ∨ (a.ts = b.ts ∧ sqlTextLe a.message_id b.message_id)

instance : DecidableRel rowOrd := fun a b => by unfold rowOrd; infer_instance

instance : IsTrans Row rowOrd where
  trans a b c hab hbc := by
    rcases hab with h1 | ⟨he1, h1⟩ <;> rcases hbc with h2 | ⟨he2, h2⟩
    · exact Or.inl (lt_trans h1 h2)
    · exact Or.inl (he2 ▸ h1)
    · exact Or.inl (he1 ▸ h2)
    · exact Or.inr ⟨he1.trans he2, le_trans h1 h2⟩

instance : IsTotal Row rowOrd where
  total a b := by
    rcases lt_trichotomy (textKey a.ts) (textKey b.ts) with h | h | h
    · exact Or.inl (Or.inl h)
    · have he : a.ts = b.ts := textKey_injective h
      rcases le_total (textKey a.message_id) (textKey b.message_id) with h2 | h2
      · exact Or.inl (Or.inr ⟨he, h2⟩)
      · exact Or.inr (Or.inr ⟨he.symm, h2⟩)
    · exact Or.inr (Or.inl h)

/-- Shallow embedding of `storage.get_messages`.

`limit` and `offset` are the raw SQL parameters (`LIMIT ? OFFSET ?`):
SQLite treats a negative `OFFSET` as `0` and a negative `LIMIT` as
"no bound".  Returns `(page, total_count)`; `total_count` comes from
`SELECT COUNT(*) ... WHERE ...` with the same clause. -/
def get_messages (limit offset : Int) (from_msisdn since q : Option String)
    (store : List Row) : List Row × Nat :=
  let matching := store.filter (rowMatches from_msisdn since q)
  let total := matching.length
  let sorted := List.insertionSort rowOrd matching
  let afterOffset := sorted.drop offset.toNat
  let page := if limit < 0 then afterOffset else afterOffset.take limit.toNat
  (page, total)

/-! ## `storage.get_stats` -/

/-- One entry of `messages_per_sender` (the dict `{"from": ..., "count": ...}`). -/
structure SenderCount where
  sender : String
  count : Nat
deriving DecidableEq, Repr

/-- The result dict of `storage.get_stats`. -/
structure Stats where
  total_messages : Nat
  senders_count : Nat
  messages_per_sender : List SenderCount
  first_message_ts : Option String
  last_message_ts : Option String
deriving DecidableEq, Repr

/-- `ORDER BY count DESC` on sender groups.  The SQL carries no explicit
tie-breaker; SQLite's `GROUP BY from_msisdn` emits groups in ascending
sender order and its sorter preserves that order among equal counts, so the
observable tie order is sender ascending.  The embedding fixes exactly that
order. -/
def rankOrd (a b : SenderCount) : Prop :=
  b.count < a.count ∨ (a.count = b.count ∧ sqlTextLe a.sender b.sender)

instance : DecidableRel rankOrd := fun a b => by unfold rankOrd; infer_instance

instance : IsTrans SenderCount rankOrd where
  trans a b c hab hbc := by
    rcases hab with h1 | ⟨he1, h1⟩ <;> rcases hbc with h2 | ⟨he2, h2⟩
    · exact Or.inl (lt_trans h2 h1)
    · exact Or.inl (he2 ▸ h1)
    · exact Or.inl (he1 ▸ h2)
    · exact Or.inr ⟨he1.trans he2, le_trans h1 h2⟩

instance : IsTotal SenderCount rankOrd where
  total a b := by
    rcases lt_trichotomy a.count b.count with h | h | h
    · exact Or.inr (Or.inl h)
    · rcases le_total (textKey a.sender) (textKey b.sender) with h2 | h2
      · exact Or.inl (Or.inr ⟨h, h2⟩)
      · exact Or.inr (Or.inr ⟨h.symm, h2⟩)
    · exact Or.inl (Or.inl h)

/-- SQL `MIN` over TEXT values (SQLite text order). -/
def sqlMin? : List String → Option String
  | [] => none
  | s :: rest =>
    match sqlMin? rest with
    | none => some s
    | some m => if sqlTextLe s m then some s else some m

/-- SQL `MAX` over TEXT values (SQLite text order). -/
def sqlMax? : List String → Option String
  | [] => none
  | s :: rest =>
    match sqlMax? rest with
    | none => some s
    | some m => if sqlTextLe m s then some s else some m

/-- Python `result[0] if result[0] else None`: both `None` (SQL NULL from
an empty table) and the empty string are falsy and map to `None`. -/
def pyOptFalsy : Option String → Option String
  | none => none
  | some s => if s = "" then none else some s

/-- Shallow embedding of `storage.get_stats`: total count, distinct-sender
count, the per-sender counts sorted by `ORDER BY count DESC` (tie order
fixed as sender ascending, see `rankOrd`) truncated by `LIMIT 10`, and
`MIN(ts)`/`MAX(ts)` (the `WHERE ts IS NOT NULL` clause is vacuous because
the column is `NOT NULL`). -/
def get_stats (store : List Row) : Stats where
  total_messages := store.length
  senders_count := (store.map Row.from_msisdn).dedup.length
  messages_per_sender :=
    (List.insertionSort rankOrd
      ((store.map Row.from_msisdn).dedup.map
        (fun s => ⟨s, (store.filter (fun r => r.from_msisdn == s)).length⟩))).take 10
  first_message_ts := pyOptFalsy (sqlMin? (store.map Row.ts))
  last_message_ts := pyOptFalsy (sqlMax? (store.map Row.ts))

/-! ## HMAC-SHA256 (`hmac.new(secret.encode(), body, hashlib.sha256).hexdigest()`)

A complete executable implementation of SHA-256 and HMAC over byte lists,
with 32-bit words represented as `Nat` reduced mod `2^32`. -/

/-- Truncate to a 32-bit word. -/
def w32 (n : Nat) : Nat := n % 4294967296

/-- 32-bit right rotation (the argument is assumed `< 2^32`). -/
def rotr32 (x n : Nat) : Nat := w32 ((x >>> n) ||| (x <<< (32 - n)))

/-- The SHA-256 round constants (FIPS 180-4 section 4.2.2, written in
decimal). -/
def shaK : List Nat :=
  [1116352408, 1899447441, 3049323471, 3921009573,
   961987163, 1508970993, 2453635748, 2870763221,
   3624381080, 310598401, 607225278, 1426881987,
   1925078388, 2162078206, 2614888103, 3248222580,
   3835390401, 4022224774, 264347078, 604807628,
   770255983, 1249150122, 1555081692, 1996064986,
   2554220882, 2821834349, 2952996808, 3210313671,
   3336571891, 3584528711, 113926993, 338241895,
   666307205, 773529912, 1294757372, 1396182291,
   1695183700, 1986661051, 2177026350, 2456956037,
   2730485921, 2820302411, 3259730800, 3345764771,
   3516065817, 3600352804, 4094571909, 275423344,
   430227734, 506948616, 659060556, 883997877,
   958139571, 1322822218, 1537002063, 1747873779,
   1955562222, 2024104815, 2227730452, 2361852424,
   2428436474, 2756734187, 3204031479, 3329325298]

/-- The eight SHA-256 working variables. -/
structure Sha8 where
  a : Nat
  b : Nat
  c : Nat
  d : Nat
  e : Nat
  f : Nat
  g : Nat
  h : Nat
deriving DecidableEq, Repr

/-- The SHA-256 initial hash value (FIPS 180-4 section 5.3.3, written in
decimal). -/
def shaInitState : Sha8 :=
  ⟨1779033703, 3144134277, 1013904242, 2773480762,
   1359893119, 2600822924, 528734635, 1541459225⟩

def bigSigma0 (x : Nat) : Nat := rotr32 x 2 ^^^ rotr32 x 13 ^^^ rotr32 x 22

def bigSigma1 (x : Nat) : Nat := rotr32 x 6 ^^^ rotr32 x 11 ^^^ rotr32 x 25

def smallSigma0 (x : Nat) : Nat := rotr32 x 7 ^^^ rotr32 x 18 ^^^ (x >>> 3)

def smallSigma1 (x : Nat) : Nat := rotr32 x 17 ^^^ rotr32 x 19 ^^^ (x >>> 10)

def chFn (e f g : Nat) : Nat := (e &&& f) ^^^ ((e ^^^ 0xffffffff) &&& g)

def majFn (a b c : Nat) : Nat := (a &&& b) ^^^ (a &&& c) ^^^ (b &&& c)

/-- One SHA-256 compression round; `kw` is the pair (round constant,
schedule word). -/
def shaRound (s : Sha8) (kw : Nat × Nat) : Sha8 :=
  let t1 := w32 (s.h + bigSigma1 s.e + chFn s.e s.f s.g + kw.1 + kw.2)
  let t2 := w32 (bigSigma0 s.a + majFn s.a s.b s.c)
  ⟨w32 (t1 + t2), s.a, s.b, s.c, w32 (s.d + t1), s.e, s.f, s.g⟩

/-- Big-endian grouping of bytes into 32-bit words. -/
def bytesToWords : List Nat → List Nat
  | b0 :: b1 :: b2 :: b3 :: rest =>
    ((b0 <<< 24) ||| (b1 <<< 16) ||| (b2 <<< 8) ||| b3) :: bytesToWords rest
  | _ => []

/-- Extend the 16 message words of a block to the 64-word schedule. -/
def extendSchedule (w : List Nat) : List Nat :=
  (List.range 48).foldl
    (fun acc _ =>
      let n := acc.length
      acc ++ [w32 (acc.getD (n - 16) 0 + smallSigma0 (acc.getD (n - 15) 0) +
        acc.getD (n - 7) 0 + smallSigma1 (acc.getD (n - 2) 0))])
    w

/-- Compress one 64-byte block into the running hash state. -/
def shaCompress (s : Sha8) (block : List Nat) : Sha8 :=
  let w := extendSchedule (bytesToWords block)
  let t := (shaK.zip w).foldl shaRound s
  ⟨w32 (s.a + t.a), w32 (s.b + t.b), w32 (s.c + t.c), w32 (s.d + t.d),
   w32 (s.e + t.e), w32 (s.f + t.f), w32 (s.g + t.g), w32 (s.h + t.h)⟩

/-- SHA-256 padding: a `0x80` byte, zeros to 56 mod 64, and the bit length
as eight big-endian bytes. -/
def shaPad (msg : List Nat) : List Nat :=
  let padLen := (119 - (msg.length % 64)) % 64
  let bits := msg.length * 8
  msg ++ 0x80 :: List.replicate padLen 0 ++
    [(bits >>> 56) &&& 255, (bits >>> 48) &&& 255, (bits >>> 40) &&& 255,
     (bits >>> 32) &&& 255, (bits >>> 24) &&& 255, (bits >>> 16) &&& 255,
     (bits >>> 8) &&& 255, bits &&& 255]

/-- Split into 64-byte blocks.  The first argument is recursion fuel, at
least the number of blocks (callers pass the list length). -/
def chunks64 : Nat → List Nat → List (List Nat)
  | 0, _ => []
  | _ + 1, [] => []
  | fuel + 1, x :: rest =>
    ((x :: rest).take 64) :: chunks64 fuel ((x :: rest).drop 64)

/-- Serialize the final state as 32 big-endian bytes. -/
def shaOutBytes (s : Sha8) : List Nat :=
  [(s.a >>> 24) &&& 255, (s.a >>> 16) &&& 255, (s.a >>> 8) &&& 255, s.a &&& 255,
   (s.b >>> 24) &&& 255, (s.b >>> 16) &&& 255, (s.b >>> 8) &&& 255, s.b &&& 255,
   (s.c >>> 24) &&& 255, (s.c >>> 16) &&& 255, (s.c >>> 8) &&& 255, s.c &&& 255,
   (s.d >>> 24) &&& 255, (s.d >>> 16) &&& 255, (s.d >>> 8) &&& 255, s.d &&& 255,
   (s.e >>> 24) &&& 255, (s.e >>> 16) &&& 255, (s.e >>> 8) &&& 255, s.e &&& 255,
   (s.f >>> 24) &&& 255, (s.f >>> 16) &&& 255, (s.f >>> 8) &&& 255, s.f &&& 255,
   (s.g >>> 24) &&& 255, (s.g >>> 16) &&& 255, (s.g >>> 8) &&& 255, s.g &&& 255,
   (s.h >>> 24) &&& 255, (s.h >>> 16) &&& 255, (s.h >>> 8) &&& 255, s.h &&& 255]

/-- SHA-256 of a byte list, as 32 bytes. -/
def sha256Bytes (msg : List Nat) : List Nat :=
  let padded := shaPad msg
  shaOutBytes ((chunks64 padded.length padded).foldl shaCompress shaInitState)

/-- UTF-8 encoding of a string (Python `str.encode()`). -/
def utf8Bytes (s : String) : List Nat :=
  (s.data.map (fun c => (String.utf8EncodeChar c).map UInt8.toNat)).flatten

/-- HMAC-SHA256 over byte lists (RFC 2104 with a 64-byte block). -/
def hmacSha256 (key msg : List Nat) : List Nat :=
  let k0 := if 64 < key.length then sha256Bytes key else key
  let k64 := k0 ++ List.replicate (64 - k0.length) 0
  let ipad := k64.map (fun b => b ^^^ 0x36)
  let opad := k64.map (fun b => b ^^^ 0x5c)
  sha256Bytes (opad ++ sha256Bytes (ipad ++ msg))

/-- The lowercase hex alphabet used by Python's `hexdigest()`. -/
def hexAlphabet : List Char := "0123456789abcdef".data

def hexChar (n : Nat) : Char := hexAlphabet.getD n '0'

/-- Two lowercase hex characters per byte (Python `hexdigest()`). -/
def bytesToHex : List Nat → List Char
  | [] => []
  | b :: rest => hexChar ((b >>> 4) &&& 15) :: hexChar (b &&& 15) :: bytesToHex rest

/-- `hmac.new(secret.encode(), body, hashlib.sha256).hexdigest()` — the
expected signature computed by `main.webhook`. -/
def hmacSha256Hex (secret : String) (body : List Nat) : String :=
  ⟨bytesToHex (hmacSha256 (utf8Bytes secret) body)⟩

/-! ## `models.WebhookMessage` validation -/

/-- The raw field values of an inbound webhook body, after JSON decoding
(aliases `from`/`to` already mapped to `from_msisdn`/`to_msisdn`) but
before the pydantic validators run. -/
structure RawPayload where
  message_id : String
  from_msisdn : String
  to_msisdn : String
  ts : String
  text : Option String
deriving DecidableEq, Repr

/-- `validate_msisdn`: `v.startswith("+") and v[1:].isdigit()`.  Python's
`"".isdigit()` is `False`, so at least one digit is required.  (`isdigit`
is modelled for ASCII digits; the validator's documented intent is
`^\+[0-9]+$`.) -/
def msisdnValid (v : String) : Bool :=
  match v.data with
  | '+' :: rest => !rest.isEmpty && rest.all Char.isDigit
  | _ => false

example : msisdnValid "+919876543210" = true := by decide
example : msisdnValid "919876543210" = false := by decide
example : msisdnValid "+" = false := by decide

/-- Python `v.replace("Z", "+00:00")` for the one-character needle `"Z"`:
every occurrence is expanded. -/
def replaceZ (v : String) : String :=
  ⟨v.data.flatMap (fun c => if c = 'Z' then "+00:00".data else [c])⟩

def isLeapYear (y : Nat) : Bool := (y % 4 == 0 && y % 100 != 0) || y % 400 == 0

def daysInMonth (y m : Nat) : Nat :=
  if m = 2 then (if isLeapYear y then 29 else 28)
  else if m = 4 ∨ m = 6 ∨ m = 9 ∨ m = 11 then 30
  else 31

def digitVal (c : Char) : Nat := c.toNat - 48

def twoDigits (a b : Char) : Option Nat :=
  if a.isDigit && b.isDigit then some (digitVal a * 10 + digitVal b) else none

def dateOk (y1 y2 y3 y4 m1 m2 d1 d2 : Char) : Bool :=
  match twoDigits y1 y2, twoDigits y3 y4, twoDigits m1 m2, twoDigits d1 d2 with
  | some hy, some ly, some m, some d =>
    let y := hy * 100 + ly
    1 ≤ y && 1 ≤ m && m ≤ 12 && 1 ≤ d && d ≤ daysInMonth y m
  | _, _, _, _ => false

/-- A UTC offset suffix `±HH:MM` (or nothing). -/
def offsetOk (l : List Char) : Bool :=
  match l with
  | [] => true
  | [sg, h1, h2, ':', m1, m2] =>
    (sg = '+' || sg = '-') &&
      (match twoDigits h1 h2, twoDigits m1 m2 with
       | some h, some m => h ≤ 23 && m ≤ 59
       | _, _ => false)
  | _ => false

/-- An optional fractional-second part (`.` then at least one digit)
followed by an optional offset. -/
def fracAndOffset (l : List Char) : Bool :=
  match l with
  | '.' :: rest =>
    let frac := rest.takeWhile Char.isDigit
    !frac.isEmpty && offsetOk (rest.dropWhile Char.isDigit)
  | _ => offsetOk l

/-- An optional `:SS[.ffff]` part followed by an optional offset. -/
def secondsEtc (l : List Char) : Bool :=
  match l with
  | ':' :: s1 :: s2 :: rest =>
    (match twoDigits s1 s2 with
     | some s => s ≤ 59 && fracAndOffset rest
     | none => false)
  | _ => offsetOk l

def timeOk (l : List Char) : Bool :=
  match l with
  | h1 :: h2 :: ':' :: m1 :: m2 :: rest =>
    (match twoDigits h1 h2, twoDigits m1 m2 with
     | some h, some m => h ≤ 23 && m ≤ 59 && secondsEtc rest
     | _, _ => false)
  | _ => false

/-- Model of `datetime.fromisoformat` acceptance (Python 3.11+), on the
shapes relevant here: an extended-format calendar date `YYYY-MM-DD`,
optionally followed by `T` or space and a time `HH:MM[:SS[.f+]]`,
optionally followed by a `±HH:MM` offset.  (`fromisoformat` accepts some
further shapes — basic format, week dates, offset seconds — on which
nothing below depends.) -/
def isoOk (s : String) : Bool :=
  match s.data with
  | [y1, y2, y3, y4, '-', mo1, mo2, '-', d1, d2] =>
    dateOk y1 y2 y3 y4 mo1 mo2 d1 d2
  | y1 :: y2 :: y3 :: y4 :: '-' :: mo1 :: mo2 :: '-' :: d1 :: d2 :: sep :: rest =>
    (sep = 'T' || sep = ' ') && dateOk y1 y2 y3 y4 mo1 mo2 d1 d2 && timeOk rest
  | _ => false

/-- `validate_ts`: the string must end with `Z` and, after replacing `Z`
with `+00:00`, parse with `datetime.fromisoformat`. -/
def tsValid (v : String) : Bool :=
  (v.data.getLast? == some 'Z') && isoOk (replaceZ v)

example : tsValid "2025-01-15T10:00:00Z" = true := by decide
example : tsValid "2025-01-15T10:00:00" = false := by decide
example : tsValid "2025-02-30T10:00:00Z" = false := by decide

/-- The complete pydantic validation of `WebhookMessage`: `message_id`
non-empty (`min_length=1`), both MSISDNs phone-shaped, `ts` a `Z`-suffixed
ISO-8601 instant, `text` absent or at most 4096 characters
(`max_length=4096`). -/
def webhookMessageValid (p : RawPayload) : Bool :=
  p.message_id != "" && msisdnValid p.from_msisdn && msisdnValid p.to_msisdn &&
    tsValid p.ts &&
    (match p.text with
     | none => true
     | some t => t.length ≤ 4096)

/-! ## `main` endpoints -/

/-- The externally observable outcome of one `POST /webhook` request.
`internalError` is the explicit `HTTPException(500)` raised on
`success == False`; `uncaught` is an exception escaping the handler
(FastAPI also surfaces it as a 500). -/
inductive Resp where
  | ok
  | unauthorized
  | unprocessable
  | internalError
  | uncaught
deriving DecidableEq, Repr

/-- The HTTP status code of each outcome. -/
def statusCode : Resp → Nat
  | .ok => 200
  | .unauthorized => 401
  | .unprocessable => 422
  | .internalError => 500
  | .uncaught => 500

/-- The body of `main.webhook`, which FastAPI runs only on an
already-validated payload: the `if not x_signature` guard (missing or
empty header), then `hmac.compare_digest(expected_signature, x_signature)`,
then `insert_message`.

`compare_digest` on `str` operands requires both to be ASCII-only and
raises `TypeError` otherwise; non-ASCII header values are reachable
(Starlette decodes raw header bytes as latin-1), and the raised exception
escapes the handler and surfaces as an uncaught 500.  When both operands
are ASCII, `compare_digest`'s value is plain string equality (it differs
from `==` only in timing). -/
def webhookHandler (secret : String) (body : List Nat) (p : RawPayload)
    (x_signature : Option String) (now : String) (fault : Option DbFault)
    (store : List Row) : Resp × List Row :=
  if !pyTruthy x_signature then (.unauthorized, store)
  else
    let expected := hmacSha256Hex secret body
    let supplied := x_signature.getD ""
    if isAsciiStr expected && isAsciiStr supplied then
      if supplied == expected then
        match insert_message p.message_id p.from_msisdn p.to_msisdn p.ts p.text
            now fault store with
        | (.error _, st) => (.uncaught, st)
        | (.ok (success, _), st) =>
          if success then (.ok, st) else (.internalError, st)
      else (.unauthorized, store)
    else (.uncaught, store)

/-- One full `POST /webhook` request: FastAPI first parses and validates
the body against `WebhookMessage` — a failure yields 422 and the handler
body (including its signature check) never runs — and only then calls
`webhook`. -/
def webhookRoute (secret : String) (body : List Nat) (p : RawPayload)
    (x_signature : Option String) (now : String) (fault : Option DbFault)
    (store : List Row) : Resp × List Row :=
  if webhookMessageValid p then
    webhookHandler secret body p x_signature now fault store
  else (.unprocessable, store)

/-- The response of `GET /messages`. -/
structure MessagesResponse where
  data : List Row
  total : Nat
  limit : Int
  offset : Int
deriving DecidableEq, Repr

/-- Shallow embedding of the `main.messages` handler: clamp `limit` to
`[1, 100]` and `offset` to `≥ 0`, delegate to `get_messages`, and return
the page plus the total and the effective (post-clamp) `limit`/`offset`. -/
def messagesEndpoint (limit offset : Int) (from_msisdn since q : Option String)
    (store : List Row) : MessagesResponse :=
  let limit := if limit < 1 then 1 else limit
  let limit := if limit > 100 then 100 else limit
  let offset := if offset < 0 then 0 else offset
  let res := get_messages limit offset from_msisdn since q store
  ⟨res.1, res.2, limit, offset⟩

/-- The `main.stats` handler returns `get_stats`'s result verbatim
(field-for-field copied into `StatsResponse`). -/
def statsEndpoint (store : List Row) : Stats := get_stats store

/-- Fault-free repeated delivery of one fixed request: each attempt runs
the full `POST /webhook` pipeline, threading the store; `nows` supplies
the `datetime.utcnow()` sample of each attempt.  Returns the per-attempt
outcomes and the final store. -/
def deliverSequence (secret : String) (body : List Nat) (p : RawPayload)
    (x_signature : Option String) (nows : List String) (store : List Row) :
    List Resp × List Row :=
  match nows with
  | [] => ([], store)
  | now :: rest =>
    let first := webhookRoute secret body p x_signature now none store
    let later := deliverSequence secret body p x_signature rest first.2
    (first.1 :: later.1, later.2)

/-! ## Spec-side predicates

These definitions follow the specification's wording (not the code) and
are used only to compare the code's behaviour against the spec's claims. -/

/-- Case-sensitive: `needle` is a prefix of `hay`. -/
def prefixMatch : List Char → List Char → Bool
  | [], _ => true
  | _ :: _, [] => false
  | c :: cs, d :: ds => decide (c = d) && prefixMatch cs ds

/-- Case-sensitive substring containment — the spec's reading of
`text_contains` ("case-sensitive-by-default substring test"). -/
def containsExact (needle : List Char) : List Char → Bool
  | [] => prefixMatch needle []
  | d :: hs => prefixMatch needle (d :: hs) || containsExact needle hs

/-- ASCII-case-insensitive: `needle` is a prefix of `hay` up to
`likeFold`. -/
def prefixFoldMatch : List Char → List Char → Bool
  | [], _ => true
  | _ :: _, [] => false
  | c :: cs, d :: ds => decide (likeFold c = likeFold d) && prefixFoldMatch cs ds

/-- ASCII-case-insensitive substring containment. -/
def containsFold (needle : List Char) : List Char → Bool
  | [] => prefixFoldMatch needle []
  | d :: hs => prefixFoldMatch needle (d :: hs) || containsFold needle hs

/-- `q` is free of the SQL `LIKE` wildcard characters. -/
def noWildcards (q : List Char) : Prop := ∀ c ∈ q, c ≠ '%' ∧ c ≠ '_'

instance (q : List Char) : Decidable (noWildcards q) := by
  unfold noWildcards
  infer_instance

/-- The spec-side row predicate for `get_messages` filters: exact match on
`from_msisdn`, lexicographic `ts ≥ since`, and (ASCII-case-insensitive)
substring containment on a non-null `text`; an unsupplied or empty filter
imposes nothing. -/
def specMatches (from_msisdn since q : Option String) (r : Row) : Bool :=
  (if pyTruthy from_msisdn then r.from_msisdn == from_msisdn.getD "" else true) &&
  (if pyTruthy since then decide (sqlTextLe (since.getD "") r.ts) else true) &&
  (if pyTruthy q then
    (match r.text with
     | none => false
     | some t => containsFold (q.getD "").data t.data)
   else true)

/-! ### `LIKE '%q%'` is case-insensitive containment (for wildcard-free `q`) -/

theorem likeMatch_nil_ok (t : List Char) : likeStar (likeMatch []) t = true := by
  induction t with
  | nil => rfl
  | cons c t' ih => simp [likeStar, ih]

theorem likeMatch_append_percent {p : List Char} (hp : noWildcards p) :
    ∀ t, likeMatch (p ++ ['%']) t = prefixFoldMatch p t := by
  induction p with
  | nil =>
    intro t
    simpa [likeMatch, prefixFoldMatch] using likeMatch_nil_ok t
  | cons c cs ih =>
    intro t
    have hc := hp c (List.mem_cons_self _ _)
    have hcs : noWildcards cs := fun x hx => hp x (List.mem_cons_of_mem _ hx)
    cases t with
    | nil =>
      rcases hc with ⟨hc1, _⟩
      simp [likeMatch, prefixFoldMatch, hc1]
    | cons d ds =>
      rcases hc with ⟨hc1, hc2⟩
      simp [likeMatch, prefixFoldMatch, hc1, hc2, ih hcs ds]

theorem likeMatch_pattern_eq_containsFold {q : List Char} (hq : noWildcards q) :
    ∀ t, likeMatch ('%' :: (q ++ ['%'])) t = containsFold q t := by
  intro t
  show likeStar (likeMatch (q ++ ['%'])) t = containsFold q t
  induction t with
  | nil => simp [likeStar, containsFold, likeMatch_append_percent hq]
  | cons d ds ih => simp [likeStar, containsFold, likeMatch_append_percent hq, ih]

/-- Under a wildcard-free `q`, the code's WHERE clause coincides with the
spec-side predicate on every row. -/
theorem rowMatches_eq_specMatches {from_msisdn since q : Option String}
    (hq : noWildcards (q.getD "").data) (r : Row) :
    rowMatches from_msisdn since q r = specMatches from_msisdn since q r := by
  unfold rowMatches specMatches fromClause sinceClause qClause
  rcases hr : r.text with _ | t
  · simp [hr]
  · simp [hr, likeMatch_pattern_eq_containsFold hq]

/-! ## Helper lemmas -/

theorem bytesToHex_length (l : List Nat) : (bytesToHex l).length = 2 * l.length := by
  induction l with
  | nil => rfl
  | cons b rest ih => simp [bytesToHex, ih]; omega

theorem hmacSha256_length (key msg : List Nat) : (hmacSha256 key msg).length = 32 := rfl

theorem hmacSha256Hex_length (secret : String) (body : List Nat) :
    (hmacSha256Hex secret body).length = 64 := by
  show (bytesToHex (hmacSha256 (utf8Bytes secret) body)).length = 64
  rw [bytesToHex_length, hmacSha256_length]

theorem hmacSha256Hex_ne_empty (secret : String) (body : List Nat) :
    hmacSha256Hex secret body ≠ "" := by
  intro h
  have hl := hmacSha256Hex_length secret body
  rw [h] at hl
  simp at hl

theorem hexChar_mem (n : Nat) : hexChar n ∈ hexAlphabet := by
  by_cases h : n < 16
  · interval_cases n <;> decide
  · unfold hexChar
    rw [List.getD_eq_default]
    · decide
    · have hlen : hexAlphabet.length = 16 := rfl
      omega

theorem bytesToHex_mem {l : List Nat} {c : Char} (hc : c ∈ bytesToHex l) :
    c ∈ hexAlphabet := by
  induction l with
  | nil => simp [bytesToHex] at hc
  | cons b rest ih =>
    simp only [bytesToHex, List.mem_cons] at hc
    rcases hc with h | h | h
    · exact h ▸ hexChar_mem _
    · exact h ▸ hexChar_mem _
    · exact ih h

theorem pyTruthy_expected (secret : String) (body : List Nat) :
    pyTruthy (some (hmacSha256Hex secret body)) = true := by
  simp [pyTruthy, hmacSha256Hex_ne_empty secret body]

theorem hexAlphabet_ascii : ∀ c ∈ hexAlphabet, c.toNat < 128 := by decide

/-- The expected digest is ASCII-only (it is lowercase hex), so it never
trips `compare_digest`'s ASCII requirement. -/
theorem hmacSha256Hex_isAscii (secret : String) (body : List Nat) :
    isAsciiStr (hmacSha256Hex secret body) = true := by
  unfold isAsciiStr
  rw [List.all_eq_true]
  intro c hc
  simpa using hexAlphabet_ascii c (bytesToHex_mem hc)

/-- The handler rejects with 401, touching nothing, whenever the supplied
signature is comparable (missing, empty, or ASCII) but is not exactly the
expected digest. -/
theorem handler_bad_sig (secret : String) (body : List Nat) (p : RawPayload)
    (sig : Option String) (now : String) (fault : Option DbFault)
    (store : List Row) (hs : sig ≠ some (hmacSha256Hex secret body))
    (ha : asciiSig sig = true) :
    webhookHandler secret body p sig now fault store = (.unauthorized, store) := by
  rcases sig with _ | s
  · simp [webhookHandler, pyTruthy]
  · by_cases he : s = ""
    · simp [webhookHandler, pyTruthy, he]
    · have hne : s ≠ hmacSha256Hex secret body := fun h => hs (by rw [h])
      have ha' : isAsciiStr s = true := ha
      simp [webhookHandler, pyTruthy, he, hne, ha',
        hmacSha256Hex_isAscii secret body]

/-- A supplied non-ASCII signature makes `hmac.compare_digest` raise
`TypeError`; the exception escapes the handler (a 500 to the caller) with
the store untouched. -/
theorem handler_nonascii_sig (secret : String) (body : List Nat)
    (p : RawPayload) (s : String) (now : String) (fault : Option DbFault)
    (store : List Row) (h : isAsciiStr s = false) :
    webhookHandler secret body p (some s) now fault store =
      (.uncaught, store) := by
  have hne : s ≠ "" := by
    intro he
    rw [he] at h
    simp [isAsciiStr] at h
  simp [webhookHandler, pyTruthy, hne, h]

/-- With the expected signature supplied, the handler proceeds past the
signature check: the outcome is never 401. -/
theorem handler_good_sig (secret : String) (body : List Nat) (p : RawPayload)
    (now : String) (fault : Option DbFault) (store : List Row) :
    (webhookHandler secret body p (some (hmacSha256Hex secret body)) now fault
      store).1 ≠ .unauthorized := by
  unfold webhookHandler
  rw [pyTruthy_expected]
  simp only [Bool.not_true, Bool.false_eq_true, if_false, Option.getD_some,
    hmacSha256Hex_isAscii, Bool.and_self, if_true, beq_self_eq_true]
  rcases h : insert_message p.message_id p.from_msisdn p.to_msisdn p.ts p.text
      now fault store with ⟨o, st⟩
  rcases o with _ | ⟨success, dup⟩
  · simp
  · cases success <;> simp

/-- A `rowOrd`-sorted pair with distinct `message_id`s is strictly ordered
by `(ts, message_id)`. -/
theorem rowOrd_strict {a b : Row} (h : rowOrd a b)
    (hne : a.message_id ≠ b.message_id) :
    sqlTextLt a.ts b.ts ∨ (a.ts = b.ts ∧ sqlTextLt a.message_id b.message_id) := by
  rcases h with h | ⟨he, hle⟩
  · exact Or.inl h
  · refine Or.inr ⟨he, ?_⟩
    unfold sqlTextLt
    unfold sqlTextLe at hle
    exact lt_of_le_of_ne hle (fun hk => hne (textKey_injective hk))

/-- A payload failing pydantic validation: `from` lacks the leading `+`
(the repository's own `test_webhook_invalid_msisdn` payload). -/
def badPayload : RawPayload :=
  ⟨"m5", "919876543210", "+14155550100", "2025-01-15T10:00:00Z", some "Hello"⟩

/-- A payload passing pydantic validation (the repository's own
`test_webhook_valid_message` payload). -/
def goodPayload : RawPayload :=
  ⟨"m1", "+919876543210", "+14155550100", "2025-01-15T10:00:00Z", some "Hello"⟩

/-- A stored row whose `text` is `"HELLO"`. -/
def helloRow : Row :=
  ⟨"m1", "+919876543210", "+14155550100", "2025-01-10T10:00:00Z", some "HELLO",
   "2025-01-10T10:00:01Z"⟩

/-! ## Claim theorems -/

/-- C9: a filter parameter supplied as the empty string is treated exactly
as an absent filter by `get_messages`: the query result is identical to
the one with the filter omitted, and an empty-string `from`/`since`/`q`
clause passes every row (including rows with NULL `text`). -/
theorem empty_string_filters_treated_as_absent
    (limit offset : Int) (from_msisdn since q : Option String)
    (store : List Row) :
    get_messages limit offset (some "") since q store =
        get_messages limit offset none since q store ∧
    get_messages limit offset from_msisdn (some "") q store =
        get_messages limit offset from_msisdn none q store ∧
    get_messages limit offset from_msisdn since (some "") store =
        get_messages limit offset from_msisdn since none store ∧
    (∀ r : Row, fromClause (some "") r = true ∧ sinceClause (some "") r = true ∧
      qClause (some "") r = true) :=
  ⟨rfl, rfl, rfl, fun _ => ⟨rfl, rfl, rfl⟩⟩

/-- C5: `GET /messages` silently clamps `limit` into `[1, 100]` and
`offset` to `≥ 0` (the handler is total — there is no validation-error
outcome); the returned `total` equals the number of rows matching the
filters, independently of `limit`/`offset`; and the response carries the
effective post-clamp `limit`/`offset`. -/
theorem messages_endpoint_clamps_and_total_invariant
    (limit offset : Int) (from_msisdn since q : Option String)
    (store : List Row) :
    (messagesEndpoint limit offset from_msisdn since q store).limit =
        max 1 (min 100 limit) ∧
    (messagesEndpoint limit offset from_msisdn since q store).offset =
        max 0 offset ∧
    1 ≤ (messagesEndpoint limit offset from_msisdn since q store).limit ∧
    (messagesEndpoint limit offset from_msisdn since q store).limit ≤ 100 ∧
    0 ≤ (messagesEndpoint limit offset from_msisdn since q store).offset ∧
    (messagesEndpoint limit offset from_msisdn since q store).total =
        (store.filter (rowMatches from_msisdn since q)).length ∧
    (∀ limit2 offset2 : Int,
      (messagesEndpoint limit2 offset2 from_msisdn since q store).total =
        (messagesEndpoint limit offset from_msisdn since q store).total) := by
  have hl : (messagesEndpoint limit offset from_msisdn since q store).limit =
      if (if limit < 1 then (1 : Int) else limit) > 100 then 100
      else if limit < 1 then (1 : Int) else limit := rfl
  have ho : (messagesEndpoint limit offset from_msisdn since q store).offset =
      if offset < 0 then (0 : Int) else offset := rfl
  refine ⟨?_, ?_, ?_, ?_, ?_, rfl, fun limit2 offset2 => rfl⟩
  · rw [hl]; split_ifs <;> omega
  · rw [ho]; split_ifs <;> omega
  · rw [hl]; split_ifs <;> omega
  · rw [hl]; split_ifs <;> omega
  · rw [ho]; split_ifs <;> omega

/-- C8: every `insert_message` return value is exactly one of
Created `(True, False)`, Duplicate `(True, True)` or Failed
`(False, False)` — the pair `(False, True)` is impossible — or else an
exception escapes; any outcome other than Created leaves the store
byte-for-byte unchanged, and Created appends exactly one fully populated
row, so no path leaves a partial row. -/
theorem insert_message_outcomes_atomic
    (message_id from_msisdn to_msisdn ts : String) (text : Option String)
    (now : String) (fault : Option DbFault) (store : List Row) :
    ((insert_message message_id from_msisdn to_msisdn ts text now fault store).1 =
        .ok (true, false) ∨
      (insert_message message_id from_msisdn to_msisdn ts text now fault store).1 =
        .ok (true, true) ∨
      (insert_message message_id from_msisdn to_msisdn ts text now fault store).1 =
        .ok (false, false) ∨
      (insert_message message_id from_msisdn to_msisdn ts text now fault store).1 =
        .error ()) ∧
    ((insert_message message_id from_msisdn to_msisdn ts text now fault store).1 ≠
        .ok (true, false) →
      (insert_message message_id from_msisdn to_msisdn ts text now fault store).2 =
        store) ∧
    ((insert_message message_id from_msisdn to_msisdn ts text now fault store).1 =
        .ok (true, false) →
      (insert_message message_id from_msisdn to_msisdn ts text now fault store).2 =
        store ++ [⟨message_id, from_msisdn, to_msisdn, ts, text, now⟩]) := by
  rcases fault with _ | f
  · by_cases h : store.any (fun r => r.message_id == message_id)
    · simp [insert_message, h]
    · simp [insert_message, h]
  · cases f <;> simp [insert_message]

/-- C10 counterexample: when `sqlite3.connect` raises (inside
`get_db_connection()`, which `insert_message` calls *before* its `try`
block), the exception escapes `insert_message` instead of being mapped to
a `(success, is_duplicate)` pair — refuting "never propagates an exception
to its caller". -/
theorem insert_message_connect_fault_escapes :
    insert_message "m1" "+919876543210" "+14155550100" "2025-01-15T10:00:00Z"
        (some "Hello") "2025-01-15T10:00:01Z" (some .connect) [] =
      (.error (), []) := rfl

/-- C10 (amended): no exception raised *inside the `try` block* escapes
`insert_message`: a PRIMARY-KEY `IntegrityError` (a row with the id
already present) is mapped to the successful Duplicate outcome
`(True, True)`, and any other exception during the write is mapped to
Failed `(False, False)`; only a failure to open the database connection —
raised before the `try` — propagates. -/
theorem insert_message_maps_write_exceptions
    (message_id from_msisdn to_msisdn ts : String) (text : Option String)
    (now : String) (fault : Option DbFault) (store : List Row)
    (hf : fault ≠ some .connect) :
    (∃ r, (insert_message message_id from_msisdn to_msisdn ts text now fault
        store).1 = .ok r) ∧
    (fault = some .write →
      (insert_message message_id from_msisdn to_msisdn ts text now fault
        store).1 = .ok (false, false)) ∧
    (fault = none →
      ((insert_message message_id from_msisdn to_msisdn ts text now fault
          store).1 = .ok (true, true) ↔
        store.any (fun r => r.message_id == message_id) = true) ∧
      ((insert_message message_id from_msisdn to_msisdn ts text now fault
          store).1 = .ok (true, false) ↔
        store.any (fun r => r.message_id == message_id) = false)) := by
  rcases fault with _ | f
  · by_cases h : store.any (fun r => r.message_id == message_id)
    · simp [insert_message, h]
    · simp [insert_message, h]
  · cases f
    · exact absurd rfl hf
    · simp [insert_message]

/-- C1 counterexample: a request whose payload is malformed (`from` lacks
the leading `+`) and whose signature header is absent is answered with the
Unprocessable outcome (422), not the Unauthorized one (401): FastAPI's
payload validation runs before the handler's signature check. -/
theorem malformed_payload_without_signature_gets_422 :
    webhookRoute "test-secret-key" [] badPayload none "2025-01-15T10:00:01Z"
        none [] = (.unprocessable, []) ∧
    statusCode .unprocessable = 422 ∧
    Resp.unprocessable ≠ Resp.unauthorized := by
  refine ⟨?_, rfl, by decide⟩
  have hv : webhookMessageValid badPayload = false := by decide
  simp [webhookRoute, hv]

/-- C1 (amended): for a request whose payload passes `WebhookMessage`
validation, an absent or invalid signature is rejected before any store
access — the store is returned unchanged, whatever the fault oracle
says.  The rejection is the Unauthorized outcome (401) whenever the
signature is absent, empty, or an ASCII string differing from the
expected digest; a supplied non-ASCII signature value instead makes
`hmac.compare_digest` raise `TypeError`, which surfaces as an uncaught
500 — still with no store write.  (For a payload that fails validation
the request is instead rejected with 422 before the signature check; see
the counterexample.) -/
theorem webhook_auth_rejects_before_store_on_valid_payload
    (secret : String) (body : List Nat) (p : RawPayload) (sig : Option String)
    (now : String) (fault : Option DbFault) (store : List Row)
    (hp : webhookMessageValid p = true)
    (hs : sig ≠ some (hmacSha256Hex secret body)) :
    (webhookRoute secret body p sig now fault store).2 = store ∧
    ((webhookRoute secret body p sig now fault store).1 = .unauthorized ∨
      (webhookRoute secret body p sig now fault store).1 = .uncaught) ∧
    (asciiSig sig = true →
      webhookRoute secret body p sig now fault store = (.unauthorized, store)) ∧
    (asciiSig sig = false →
      webhookRoute secret body p sig now fault store = (.uncaught, store)) := by
  have hroute : webhookRoute secret body p sig now fault store =
      webhookHandler secret body p sig now fault store := by
    unfold webhookRoute
    rw [hp]
    simp
  rcases ha : asciiSig sig with _ | _
  · obtain ⟨s, rfl⟩ : ∃ s, sig = some s := by
      rcases sig with _ | s
      · simp [asciiSig] at ha
      · exact ⟨s, rfl⟩
    have h := handler_nonascii_sig secret body p s now fault store ha
    rw [hroute, h]
    simp
  · have h := handler_bad_sig secret body p sig now fault store hs ha
    rw [hroute, h]
    simp

/-- C7 counterexample: the payload and store held fixed, a missing
signature yields the Unauthorized response (401), but the wrong signature
`"é"` — a non-ASCII value, reachable because raw header bytes are decoded
as latin-1 — makes `hmac.compare_digest` raise `TypeError`, surfacing as
an uncaught 500: missing and wrong signatures do not always produce the
identical 401 outcome. -/
theorem nonascii_wrong_signature_gets_500 :
    webhookHandler "test-secret-key" [] goodPayload (some "é")
        "2025-01-15T10:00:01Z" none [] = (.uncaught, []) ∧
    webhookHandler "test-secret-key" [] goodPayload none
        "2025-01-15T10:00:01Z" none [] = (.unauthorized, []) ∧
    Resp.uncaught ≠ Resp.unauthorized ∧
    statusCode .uncaught = 500 ∧
    statusCode .unauthorized = 401 := by
  refine ⟨?_, ?_, by decide, rfl, rfl⟩
  · exact handler_nonascii_sig "test-secret-key" [] goodPayload "é"
      "2025-01-15T10:00:01Z" none [] (by decide)
  · exact handler_bad_sig "test-secret-key" [] goodPayload none
      "2025-01-15T10:00:01Z" none [] (by simp) rfl

/-- C7 (amended): the handler's signature verification succeeds iff the
supplied `X-Signature` equals the lowercase hexadecimal HMAC-SHA256 of the
raw body under the configured secret (that digest has 64 characters, all
from the lowercase hex — hence ASCII — alphabet); a missing or empty
signature is always rejected (verification is never skipped); a missing
signature and an ASCII wrong signature produce the identical Unauthorized
response with the store untouched; and a supplied non-ASCII signature
makes `hmac.compare_digest` raise `TypeError`, surfacing as an uncaught
500, also with the store untouched. -/
theorem webhook_signature_verification
    (secret : String) (body : List Nat) (p : RawPayload) (sig : Option String)
    (now : String) (fault : Option DbFault) (store : List Row) :
    (asciiSig sig = true →
      ((webhookHandler secret body p sig now fault store).1 ≠ .unauthorized ↔
        sig = some (hmacSha256Hex secret body))) ∧
    webhookHandler secret body p none now fault store = (.unauthorized, store) ∧
    webhookHandler secret body p (some "") now fault store =
      (.unauthorized, store) ∧
    (sig ≠ some (hmacSha256Hex secret body) → asciiSig sig = true →
      webhookHandler secret body p sig now fault store =
        webhookHandler secret body p none now fault store) ∧
    (∀ s, sig = some s → isAsciiStr s = false →
      webhookHandler secret body p sig now fault store = (.uncaught, store)) ∧
    (hmacSha256Hex secret body).length = 64 ∧
    (∀ c ∈ (hmacSha256Hex secret body).data, c ∈ hexAlphabet) ∧
    isAsciiStr (hmacSha256Hex secret body) = true := by
  have hnone : webhookHandler secret body p none now fault store =
      (.unauthorized, store) :=
    handler_bad_sig secret body p none now fault store (by simp) rfl
  have hempty : webhookHandler secret body p (some "") now fault store =
      (.unauthorized, store) :=
    handler_bad_sig secret body p (some "") now fault store
      (by simp [(hmacSha256Hex_ne_empty secret body).symm]) (by decide)
  refine ⟨?_, hnone, hempty, ?_, ?_, hmacSha256Hex_length secret body, ?_,
    hmacSha256Hex_isAscii secret body⟩
  · intro ha
    constructor
    · intro h
      by_contra hne
      exact h (by
        rw [handler_bad_sig secret body p sig now fault store hne ha])
    · intro h
      subst h
      exact handler_good_sig secret body p now fault store
  · intro hne ha
    rw [handler_bad_sig secret body p sig now fault store hne ha, hnone]
  · intro s hsig hna
    subst hsig
    exact handler_nonascii_sig secret body p s now fault store hna
  · intro c hc
    exact bytesToHex_mem hc

/-- The returned page is a sublist of the sorted matching rows. -/
theorem get_messages_page_sublist (limit offset : Int)
    (from_msisdn since q : Option String) (store : List Row) :
    (get_messages limit offset from_msisdn since q store).1.Sublist
      (List.insertionSort rowOrd (store.filter (rowMatches from_msisdn since q))) := by
  show (if limit < 0 then
      (List.insertionSort rowOrd
        (store.filter (rowMatches from_msisdn since q))).drop offset.toNat
    else
      ((List.insertionSort rowOrd
        (store.filter (rowMatches from_msisdn since q))).drop offset.toNat).take
          limit.toNat).Sublist _
  by_cases hl : limit < 0
  · rw [if_pos hl]
    exact List.drop_sublist _ _
  · rw [if_neg hl]
    exact (List.take_sublist _ _).trans (List.drop_sublist _ _)

/-- C2 counterexample: with one stored row whose `text` is `"HELLO"`, the
query `q = "hello"` counts the row (`total = 1`) even though `"hello"` is
not a case-sensitive substring of `"HELLO"`: the code's `LIKE` filter is
ASCII-case-insensitive, refuting the claim's "case-sensitive substring". -/
theorem q_filter_counts_case_insensitively :
    (get_messages 50 0 none none (some "hello") [helloRow]).2 = 1 ∧
    containsExact "hello".data "HELLO".data = false := by
  constructor
  · decide
  · decide

/-- C2 (amended): for every stored message and query call whose `q` is
free of the `LIKE` wildcards `%` and `_`, the message is counted in
`total` and eligible for the returned page iff it satisfies every supplied
filter, where `from` is an exact match, `since` is lexicographic
`ts ≥ since`, and `q` is an ASCII-case-INSENSITIVE substring test against
a non-null `text` (a NULL `text` never matches a non-empty `q`). -/
theorem query_filters_conjunctive
    (limit offset : Int) (from_msisdn since q : Option String)
    (store : List Row) (hq : noWildcards (q.getD "").data) :
    (∀ r : Row, rowMatches from_msisdn since q r =
      specMatches from_msisdn since q r) ∧
    (get_messages limit offset from_msisdn since q store).2 =
      (store.filter (specMatches from_msisdn since q)).length ∧
    (∀ r ∈ (get_messages limit offset from_msisdn since q store).1,
      specMatches from_msisdn since q r = true) := by
  have hpt : ∀ r : Row, rowMatches from_msisdn since q r =
      specMatches from_msisdn since q r :=
    fun r => rowMatches_eq_specMatches hq r
  have hfil : store.filter (rowMatches from_msisdn since q) =
      store.filter (specMatches from_msisdn since q) :=
    List.filter_congr (fun x _ => hpt x)
  refine ⟨hpt, ?_, ?_⟩
  · show (store.filter (rowMatches from_msisdn since q)).length = _
    rw [hfil]
  · intro r hr
    have h1 : r ∈ List.insertionSort rowOrd
        (store.filter (rowMatches from_msisdn since q)) :=
      (get_messages_page_sublist limit offset from_msisdn since q store).subset hr
    have h2 : r ∈ store.filter (rowMatches from_msisdn since q) :=
      (List.perm_insertionSort rowOrd _).mem_iff.mp h1
    have h3 := (List.mem_filter.mp h2).2
    rw [← hpt]
    exact h3

/-- Helper for C3: once a row with the payload's `message_id` is present,
every further delivery of that payload with the valid signature returns
the success response and leaves the store untouched. -/
theorem deliver_duplicate_steady (secret : String) (body : List Nat)
    (p : RawPayload) (nows : List String) (store : List Row)
    (hp : webhookMessageValid p = true)
    (hd : store.any (fun r => r.message_id == p.message_id) = true) :
    deliverSequence secret body p (some (hmacSha256Hex secret body)) nows store =
      (nows.map (fun _ => Resp.ok), store) := by
  induction nows with
  | nil => rfl
  | cons now rest ih =>
    have hroute : webhookRoute secret body p (some (hmacSha256Hex secret body))
        now none store = (.ok, store) := by
      simp [webhookRoute, webhookHandler, insert_message, hp,
        pyTruthy_expected, hmacSha256Hex_isAscii, hd]
    simp only [deliverSequence]
    rw [hroute]
    simp [ih]

/-- C3: delivering one valid payload `N ≥ 1` times with the valid
signature (fault-free) leaves exactly one stored row with its
`message_id`; every delivery returns the success response; and the final
store equals the store after the first delivery — one appended row whose
`created_at` is the first attempt's clock sample, all later deliveries
changing nothing. -/
theorem webhook_idempotent_delivery
    (secret : String) (body : List Nat) (p : RawPayload) (nows : List String)
    (store : List Row)
    (hp : webhookMessageValid p = true)
    (hfresh : ∀ r ∈ store, r.message_id ≠ p.message_id)
    (hN : nows ≠ []) :
    (∀ resp ∈ (deliverSequence secret body p (some (hmacSha256Hex secret body))
        nows store).1, resp = Resp.ok) ∧
    (deliverSequence secret body p (some (hmacSha256Hex secret body)) nows
        store).2 =
      store ++ [⟨p.message_id, p.from_msisdn, p.to_msisdn, p.ts, p.text,
        nows.headD ""⟩] ∧
    ((deliverSequence secret body p (some (hmacSha256Hex secret body)) nows
        store).2.filter (fun r => r.message_id == p.message_id)).length = 1 := by
  rcases nows with _ | ⟨now0, rest⟩
  · exact absurd rfl hN
  · have hany : store.any (fun r => r.message_id == p.message_id) = false := by
      rw [List.any_eq_false]
      intro r hr
      simpa using hfresh r hr
    have hstep : webhookRoute secret body p (some (hmacSha256Hex secret body))
        now0 none store =
        (.ok, store ++ [⟨p.message_id, p.from_msisdn, p.to_msisdn, p.ts,
          p.text, now0⟩]) := by
      simp [webhookRoute, webhookHandler, insert_message, hp,
        pyTruthy_expected, hmacSha256Hex_isAscii, hany]
    have hany2 : (store ++ [⟨p.message_id, p.from_msisdn, p.to_msisdn, p.ts,
        p.text, now0⟩] : List Row).any
        (fun r => r.message_id == p.message_id) = true := by
      simp
    have hrest := deliver_duplicate_steady secret body p rest
      (store ++ [⟨p.message_id, p.from_msisdn, p.to_msisdn, p.ts, p.text,
        now0⟩]) hp hany2
    have hseq : deliverSequence secret body p
        (some (hmacSha256Hex secret body)) (now0 :: rest) store =
        (Resp.ok :: rest.map (fun _ => Resp.ok),
          store ++ [⟨p.message_id, p.from_msisdn, p.to_msisdn, p.ts, p.text,
            now0⟩]) := by
      simp only [deliverSequence]
      rw [hstep]
      simp [hrest]
    refine ⟨?_, ?_, ?_⟩ <;> rw [hseq]
    · intro resp h
      rcases List.mem_cons.mp h with h1 | h1
      · exact h1
      · obtain ⟨a, _, h2⟩ := List.mem_map.mp h1
        exact h2.symm
    · rfl
    · rw [List.filter_append]
      have hnil : store.filter (fun r => r.message_id == p.message_id) = [] := by
        rw [List.filter_eq_nil_iff]
        intro r hr
        simpa using hfresh r hr
      rw [hnil]
      simp

/-- C6: the page returned by `get_messages` is sorted by `ts` ascending
with ties broken by `message_id` ascending — given the PRIMARY-KEY
invariant (no two rows share a `message_id`) this is a strict,
deterministic total order — and repeated calls with the same store and
parameters return the identical result. -/
theorem messages_page_sorted_and_stable
    (limit offset : Int) (from_msisdn since q : Option String)
    (store : List Row) (hids : (store.map Row.message_id).Nodup) :
    (get_messages limit offset from_msisdn since q store).1.Pairwise
      (fun a b => sqlTextLt a.ts b.ts ∨
        (a.ts = b.ts ∧ sqlTextLt a.message_id b.message_id)) ∧
    get_messages limit offset from_msisdn since q store =
      get_messages limit offset from_msisdn since q store := by
  refine ⟨?_, rfl⟩
  have hsub := get_messages_page_sublist limit offset from_msisdn since q store
  have hsorted : (List.insertionSort rowOrd
      (store.filter (rowMatches from_msisdn since q))).Pairwise rowOrd :=
    List.sorted_insertionSort rowOrd _
  have hord : (get_messages limit offset from_msisdn since q store).1.Pairwise
      rowOrd := List.Pairwise.sublist hsub hsorted
  have h1 : ((store.filter (rowMatches from_msisdn since q)).map
      Row.message_id).Nodup :=
    List.Nodup.sublist (List.Sublist.map Row.message_id
      (List.filter_sublist _)) hids
  have h2 : ((List.insertionSort rowOrd
      (store.filter (rowMatches from_msisdn since q))).map
      Row.message_id).Nodup :=
    (List.Perm.nodup_iff ((List.perm_insertionSort rowOrd _).map
      Row.message_id)).mpr h1
  have h3 : ((get_messages limit offset from_msisdn since q store).1.map
      Row.message_id).Nodup :=
    List.Nodup.sublist (List.Sublist.map Row.message_id hsub) h2
  have h4 : (get_messages limit offset from_msisdn since q store).1.Pairwise
      (fun a b => a.message_id ≠ b.message_id) := List.pairwise_map.mp h3
  exact (hord.and h4).imp (fun h => rowOrd_strict h.1 h.2)

set_option maxRecDepth 10000 in
/-- FIPS 180-2 test vector: SHA-256 of `"abc"`. -/
theorem sha256_matches_fips_vector :
    String.mk (bytesToHex (sha256Bytes (utf8Bytes "abc"))) =
      "ba7816bf8f01cfea414140de5dae2223b00361a396177a9cb410ff61f20015ad" := by
  decide

set_option maxRecDepth 10000 in
/-- RFC 2202-style test vector for HMAC-SHA256. -/
theorem hmac_matches_published_vector :
    hmacSha256Hex "key"
        (utf8Bytes "The quick brown fox jumps over the lazy dog") =
      "f7bc83f430538424b13298e6aa6fb143ef4d59a14946175997479dbc2d1a3cd8" := by
  decide

/-! ## Further demo stores -/

/-- A second stored row, distinct `message_id` from `helloRow`. -/
def worldRow : Row :=
  ⟨"m2", "+919876543210", "+14155550100", "2025-01-11T10:00:00Z",
   some "Goodbye world", "2025-01-11T10:00:01Z"⟩

/-- Witness for C1's amended theorem at a concrete valid payload with a
missing signature. -/
theorem webhook_auth_rejects_witness :
    webhookMessageValid goodPayload = true ∧
    ((webhookRoute "test-secret-key" [] goodPayload none "2025-01-15T10:00:01Z"
        none []).2 = [] ∧
     ((webhookRoute "test-secret-key" [] goodPayload none
        "2025-01-15T10:00:01Z" none []).1 = .unauthorized ∨
      (webhookRoute "test-secret-key" [] goodPayload none
        "2025-01-15T10:00:01Z" none []).1 = .uncaught) ∧
     (asciiSig none = true →
       webhookRoute "test-secret-key" [] goodPayload none
         "2025-01-15T10:00:01Z" none [] = (.unauthorized, [])) ∧
     (asciiSig none = false →
       webhookRoute "test-secret-key" [] goodPayload none
         "2025-01-15T10:00:01Z" none [] = (.uncaught, []))) :=
  ⟨by decide,
   webhook_auth_rejects_before_store_on_valid_payload "test-secret-key" []
     goodPayload none "2025-01-15T10:00:01Z" none [] (by decide) (by simp)⟩

/-- Witness for C2's amended theorem at `q = "hello"` over a one-row
store. -/
theorem query_filters_conjunctive_witness :
    noWildcards ((some "hello" : Option String).getD "").data ∧
    ((∀ r : Row, rowMatches none none (some "hello") r =
        specMatches none none (some "hello") r) ∧
      (get_messages 50 0 none none (some "hello") [helloRow]).2 =
        ([helloRow].filter (specMatches none none (some "hello"))).length ∧
      (∀ r ∈ (get_messages 50 0 none none (some "hello") [helloRow]).1,
        specMatches none none (some "hello") r = true)) :=
  ⟨by decide,
   query_filters_conjunctive 50 0 none none (some "hello") [helloRow]
     (by decide)⟩

/-- Witness for C3 at two deliveries of the demo payload into an empty
store. -/
theorem webhook_idempotent_delivery_witness :
    webhookMessageValid goodPayload = true ∧
    (∀ r ∈ ([] : List Row), r.message_id ≠ goodPayload.message_id) ∧
    (["2025-01-15T10:00:01Z", "2025-01-15T10:00:02Z"] : List String) ≠ [] ∧
    ((∀ resp ∈ (deliverSequence "test-secret-key" [] goodPayload
        (some (hmacSha256Hex "test-secret-key" []))
        ["2025-01-15T10:00:01Z", "2025-01-15T10:00:02Z"] []).1,
      resp = Resp.ok) ∧
     (deliverSequence "test-secret-key" [] goodPayload
        (some (hmacSha256Hex "test-secret-key" []))
        ["2025-01-15T10:00:01Z", "2025-01-15T10:00:02Z"] []).2 =
      [] ++ [⟨goodPayload.message_id, goodPayload.from_msisdn,
        goodPayload.to_msisdn, goodPayload.ts, goodPayload.text,
        (["2025-01-15T10:00:01Z", "2025-01-15T10:00:02Z"] :
          List String).headD ""⟩] ∧
     ((deliverSequence "test-secret-key" [] goodPayload
        (some (hmacSha256Hex "test-secret-key" []))
        ["2025-01-15T10:00:01Z", "2025-01-15T10:00:02Z"] []).2.filter
        (fun r => r.message_id == goodPayload.message_id)).length = 1) :=
  ⟨by decide, by simp, by simp,
   webhook_idempotent_delivery "test-secret-key" [] goodPayload
     ["2025-01-15T10:00:01Z", "2025-01-15T10:00:02Z"] [] (by decide) (by simp)
     (by simp)⟩

/-- Witness for C5 at out-of-range pagination parameters. -/
theorem messages_endpoint_clamp_witness :
    (messagesEndpoint 200 (-3) none none none [helloRow]).limit =
        max 1 (min 100 200) ∧
    (messagesEndpoint 200 (-3) none none none [helloRow]).offset = max 0 (-3) :=
  ⟨(messages_endpoint_clamps_and_total_invariant 200 (-3) none none none
      [helloRow]).1,
   (messages_endpoint_clamps_and_total_invariant 200 (-3) none none none
      [helloRow]).2.1⟩

/-- Witness for C6 at a two-row store with distinct `message_id`s. -/
theorem messages_page_sorted_witness :
    (([helloRow, worldRow].map Row.message_id).Nodup) ∧
    ((get_messages 50 0 none none none [helloRow, worldRow]).1.Pairwise
      (fun a b => sqlTextLt a.ts b.ts ∨
        (a.ts = b.ts ∧ sqlTextLt a.message_id b.message_id)) ∧
     get_messages 50 0 none none none [helloRow, worldRow] =
       get_messages 50 0 none none none [helloRow, worldRow]) :=
  ⟨by decide,
   messages_page_sorted_and_stable 50 0 none none none [helloRow, worldRow]
     (by decide)⟩

/-- Witness for C7's amended theorem at a concrete request with a missing
signature. -/
theorem webhook_signature_verification_witness :
    (asciiSig (none : Option String) = true →
      ((webhookHandler "test-secret-key" [] goodPayload none
          "2025-01-15T10:00:01Z" none []).1 ≠ .unauthorized ↔
        (none : Option String) = some (hmacSha256Hex "test-secret-key" []))) ∧
    webhookHandler "test-secret-key" [] goodPayload none
      "2025-01-15T10:00:01Z" none [] = (.unauthorized, []) ∧
    webhookHandler "test-secret-key" [] goodPayload (some "")
      "2025-01-15T10:00:01Z" none [] = (.unauthorized, []) ∧
    ((none : Option String) ≠ some (hmacSha256Hex "test-secret-key" []) →
      asciiSig (none : Option String) = true →
      webhookHandler "test-secret-key" [] goodPayload none
        "2025-01-15T10:00:01Z" none [] =
      webhookHandler "test-secret-key" [] goodPayload none
        "2025-01-15T10:00:01Z" none []) ∧
    (∀ s, (none : Option String) = some s → isAsciiStr s = false →
      webhookHandler "test-secret-key" [] goodPayload none
        "2025-01-15T10:00:01Z" none [] = (.uncaught, [])) ∧
    (hmacSha256Hex "test-secret-key" []).length = 64 ∧
    (∀ c ∈ (hmacSha256Hex "test-secret-key" []).data, c ∈ hexAlphabet) ∧
    isAsciiStr (hmacSha256Hex "test-secret-key" []) = true :=
  webhook_signature_verification "test-secret-key" [] goodPayload none
    "2025-01-15T10:00:01Z" none []

/-- Witness for C8 at a concrete write-fault insert. -/
theorem insert_message_outcomes_atomic_witness :
    ((insert_message "m1" "+919876543210" "+14155550100"
        "2025-01-15T10:00:00Z" (some "Hello") "now" (some .write) [helloRow]).1 =
        .ok (true, false) ∨
      (insert_message "m1" "+919876543210" "+14155550100"
        "2025-01-15T10:00:00Z" (some "Hello") "now" (some .write) [helloRow]).1 =
        .ok (true, true) ∨
      (insert_message "m1" "+919876543210" "+14155550100"
        "2025-01-15T10:00:00Z" (some "Hello") "now" (some .write) [helloRow]).1 =
        .ok (false, false) ∨
      (insert_message "m1" "+919876543210" "+14155550100"
        "2025-01-15T10:00:00Z" (some "Hello") "now" (some .write) [helloRow]).1 =
        .error ()) ∧
    (insert_message "m1" "+919876543210" "+14155550100" "2025-01-15T10:00:00Z"
        (some "Hello") "now" (some .write) [helloRow]).2 = [helloRow] :=
  ⟨(insert_message_outcomes_atomic "m1" "+919876543210" "+14155550100"
      "2025-01-15T10:00:00Z" (some "Hello") "now" (some .write) [helloRow]).1,
   (insert_message_outcomes_atomic "m1" "+919876543210" "+14155550100"
      "2025-01-15T10:00:00Z" (some "Hello") "now" (some .write) [helloRow]).2.1
     (by simp [insert_message])⟩

/-- Witness for C9: identical query results with a supplied-empty versus
omitted filter, at a store whose row has non-empty fields. -/
theorem empty_string_filters_witness :
    get_messages 50 0 (some "") none none [helloRow] =
      get_messages 50 0 none none none [helloRow] :=
  (empty_string_filters_treated_as_absent 50 0 none none none [helloRow]).1

/-- Witness for C10's amended theorem at a fault-free insert into an empty
store. -/
theorem insert_message_maps_write_exceptions_witness :
    (none : Option DbFault) ≠ some .connect ∧
    (∃ r, (insert_message "m1" "+919876543210" "+14155550100"
        "2025-01-15T10:00:00Z" (some "Hello") "now" none []).1 = .ok r) :=
  ⟨by decide,
   (insert_message_maps_write_exceptions "m1" "+919876543210" "+14155550100"
      "2025-01-15T10:00:00Z" (some "Hello") "now" none [] (by decide)).1⟩
